import Mathlib

/-
Verification development for the qa-eval repository (src/qaeval/openllm.py).

Python strings are embedded as `List Char` (ASCII range in all inputs of
interest); Python dicts of strings as association lists; Python's `None`
in string positions via a dedicated value type.  The regular-expression
cascade of `_parse_response` is embedded by a small backtracking matcher
`pmatch` whose result list enumerates candidate matches in exactly the
order Python's `re` backtracking engine explores them (greedy quantifiers
first, left alternative first), so that `List.head?` of that list is the
match Python's `re.match` returns.  The pattern ASTs below transcribe the
regex literals of the source one construct at a time.
-/

abbrev Str := List Char

/-- Python `str.lower()` restricted to ASCII, as used on the responses. -/
def pyLower (s : Str) : Str := s.map Char.toLower

/-- Python `str.capitalize()`: first character upper-cased, rest lower-cased. -/
def pyCapitalize : Str → Str
  | [] => []
  | c :: rest => c.toUpper :: rest.map Char.toLower

/-- The characters Python's `str.strip()` and regex `\s` treat as whitespace. -/
def isPySpace (c : Char) : Bool :=
  c == ' ' || c == '\t' || c == '\n' || c == '\r' || c == '\x0b' || c == '\x0c'

/-- Python `str.strip()`. -/
def pyStrip (s : Str) : Str :=
  ((s.dropWhile isPySpace).reverse.dropWhile isPySpace).reverse

/-- Python `sep.join(parts)`. -/
def pyJoin (sep : Str) : List Str → Str
  | [] => []
  | [s] => s
  | s :: rest => s ++ sep ++ pyJoin sep rest

/-- Python substring test `needle in hay` (case sensitive). -/
def containsStr (needle hay : Str) : Bool :=
  hay.tails.any (fun t => needle.isPrefixOf t)

/-- Worker for `pySplit3`: `cur` holds the reversed current segment. -/
def pySplit3Aux (cur : Str) : Str → List Str
  | [] => [cur.reverse]
  | '#' :: '#' :: '#' :: rest => cur.reverse :: pySplit3Aux [] rest
  | c :: rest => pySplit3Aux (c :: cur) rest

/-- Python `s.split("###")`: split on each non-overlapping occurrence. -/
def pySplit3 (s : Str) : List Str := pySplit3Aux [] s

/-
Regular-expression engine.  The source compiles its patterns with
re.IGNORECASE | re.MULTILINE | re.DOTALL, so literals match case
insensitively, `.` matches newline, and `$` matches at the end of the
string or before any newline.
-/

/-- Captured groups of a regex match: group index paired with the matched text. -/
abbrev Caps := List (Nat × Str)

/-- Regex abstract syntax, covering exactly the constructs used by the source
patterns: greedy `.*` (DOTALL), case-insensitive literals, character classes,
`\s+`, greedy `?`, alternation, sequencing, numbered capture groups, and the
MULTILINE `$` anchor. -/
inductive Pat where
  | dotStar : Pat
  | lit : Str → Pat
  | cls : List Char → Pat
  | wsPlus : Pat
  | opt : Pat → Pat
  | alt : Pat → Pat → Pat
  | seq : Pat → Pat → Pat
  | grp : Nat → Pat → Pat
  | eol : Pat

/-- Suffixes of `s` from shortest to longest: the remainders a greedy `.*`
leaves behind, in the order backtracking tries them (most consumed first). -/
def suffixesAsc : Str → List Str
  | [] => [[]]
  | c :: rest => suffixesAsc rest ++ [c :: rest]

/-- Match a literal case-insensitively against a prefix of `s`, returning the
remainder on success. -/
def dropLitCI : Str → Str → Option Str
  | [], s => some s
  | _, [] => none
  | a :: as, b :: bs => if a.toLower == b.toLower then dropLitCI as bs else none

/-- Length of the maximal whitespace prefix of `s`. -/
def wsTake (s : Str) : Nat := (s.takeWhile isPySpace).length

/-- Remainders after `\s+` consumes k leading whitespace characters, for k from
the maximum down to 1 (greedy order); empty if `s` has no leading whitespace. -/
def wsPlusRems (s : Str) : List Str :=
  (List.range (wsTake s)).map (fun i => s.drop (wsTake s - i))

/-- All ways a pattern can match a prefix of `s`, as (remainder, captures)
pairs, in Python backtracking priority order; the head is the match
Python's engine reports. -/
def pmatch : Pat → Str → List (Str × Caps)
  | .dotStar, s => (suffixesAsc s).map (fun t => (t, []))
  | .lit l, s =>
    match dropLitCI l s with
    | some rest => [(rest, [])]
    | none => []
  | .cls cs, s =>
    match s with
    | [] => []
    | c :: rest => if cs.any (fun a => a.toLower == c.toLower) then [(rest, [])] else []
  | .wsPlus, s => (wsPlusRems s).map (fun t => (t, []))
  | .opt p, s => pmatch p s ++ [(s, [])]
  | .alt p q, s => pmatch p s ++ pmatch q s
  | .seq p q, s =>
    (pmatch p s).flatMap (fun pr => (pmatch q pr.1).map (fun qr => (qr.1, pr.2 ++ qr.2)))
  | .grp i p, s =>
    (pmatch p s).map (fun pr => (pr.1, pr.2 ++ [(i, s.take (s.length - pr.1.length))]))
  | .eol, s =>
    match s with
    | [] => [([], [])]
    | c :: rest => if c == '\n' then [(c :: rest, [])] else []

/-- Python `re.match(pattern, s, ...)`: the highest-priority match anchored at
the start of `s`, if any. -/
def reMatch (p : Pat) (s : Str) : Option (Str × Caps) := (pmatch p s).head?

/-- Python `re.search(pattern, s, ...) is not None`: a match starting at some
position of `s` exists. -/
def reSearch (p : Pat) (s : Str) : Bool :=
  s.tails.any (fun t => !(pmatch p t).isEmpty)

/-- Python `matched.group(i)`: the text captured by group `i`, if it
participated in the match. -/
def capGroup (caps : Caps) (i : Nat) : Option Str :=
  (caps.find? (fun x => x.1 == i)).map (fun x => x.2)

/-- Sequence a list of pattern pieces left to right. -/
def cat : List Pat → Pat
  | [] => .lit []
  | [p] => p
  | p :: rest => .seq p (cat rest)

/-- Regex fragment `['\"]?`. -/
def quoteOpt : Pat := .opt (.cls ['\x27', '"'])

/-- Regex fragment `\.?`. -/
def dotOpt : Pat := .opt (.cls ['.'])

/-- Regex fragment `[.!]?`. -/
def punctOpt : Pat := .opt (.cls ['.', '!'])

/-- Regex fragment `,?`. -/
def commaOpt : Pat := .opt (.cls [','])

/-- Regex fragment `(yes|no)` (capture group added at use sites). -/
def yesNo : Pat := .alt (.lit ("yes".data)) (.lit ("no".data))

/-- Source pattern `.*['\"]?(yes|no)\.?['\"]?[.!]?$`. -/
def pat1 : Pat := cat [.dotStar, quoteOpt, .grp 1 yesNo, dotOpt, quoteOpt, punctOpt, .eol]

/-- Source pattern `.*I can answer\s+['\"]?(yes|no)['\"]?[.!]?`. -/
def pat2 : Pat :=
  cat [.dotStar, .lit ("I can answer".data), .wsPlus, quoteOpt, .grp 1 yesNo, quoteOpt, punctOpt]

/-- Source pattern `.*I would say\s+['\"]?(yes|no)['\"]?[.!]?`. -/
def pat3 : Pat :=
  cat [.dotStar, .lit ("I would say".data), .wsPlus, quoteOpt, .grp 1 yesNo, quoteOpt, punctOpt]

/-- Source pattern `.*I must say\s+['\"]?(yes|no)['\"]?[.!]?`. -/
def pat4 : Pat :=
  cat [.dotStar, .lit ("I must say".data), .wsPlus, quoteOpt, .grp 1 yesNo, quoteOpt, punctOpt]

/-- Source pattern `.*my (final )?judgment is\s+['\"]?(yes|no)['\"]?[.!]?`
(whose yes/no token is capture group 2). -/
def pat5 : Pat :=
  cat [.dotStar, .lit ("my ".data), .opt (.grp 1 (.lit ("final ".data))),
    .lit ("judgment is".data), .wsPlus, quoteOpt, .grp 2 yesNo, quoteOpt, punctOpt]

/-- Source pattern `.*I would judge the candidate answer as\s+['\"]?(yes|no)['\"]?[.!]?`. -/
def pat6 : Pat :=
  cat [.dotStar, .lit ("I would judge the candidate answer as".data), .wsPlus, quoteOpt,
    .grp 1 yesNo, quoteOpt, punctOpt]

/-- Source pattern `.*\s+['\"]?(yes|no)['\"]?,? the candidate( answer)? is`. -/
def pat7 : Pat :=
  cat [.dotStar, .wsPlus, quoteOpt, .grp 1 yesNo, quoteOpt, commaOpt,
    .lit (" the candidate".data), .opt (.grp 2 (.lit (" answer".data))), .lit (" is".data)]

/-- Source pattern `.*[jJ]udgment:\s+['\"]?(yes|no)\.?['\"]?`. -/
def pat8 : Pat :=
  cat [.dotStar, .cls ['j', 'J'], .lit ("udgment:".data), .wsPlus, quoteOpt,
    .grp 1 yesNo, dotOpt, quoteOpt]

/-- The ordered `patterns` list of `_parse_response`, each with its
`match_idx` (1 by default, 2 for the fifth pattern), exactly as in the source. -/
def patterns : List (Pat × Nat) :=
  [(pat1, 1), (pat2, 1), (pat3, 1), (pat4, 1), (pat5, 2), (pat6, 1), (pat7, 1), (pat8, 1)]

/-- Source pattern `candidate( answer)? is correct`. -/
def correctPat1 : Pat :=
  cat [.lit ("candidate".data), .opt (.grp 1 (.lit (" answer".data))), .lit (" is correct".data)]

/-- Source pattern `candidate's correct`. -/
def correctPat2 : Pat := .lit ("candidate\x27s correct".data)

/-- The `correct_patterns` list of `_parse_response`. -/
def correct_patterns : List Pat := [correctPat1, correctPat2]

/-- The first `for pattern in patterns` loop of `_parse_response`: first
`re.match` that succeeds yields `matched.group(match_idx).capitalize()`.
(In every source pattern the selected group participates whenever the
pattern matches, so the `Option` default is never taken.) -/
def runPatterns : List (Pat × Nat) → Str → Str
  | [], _ => []
  | (p, idx) :: rest, response =>
    match reMatch p response with
    | some pr => pyCapitalize ((capGroup pr.2 idx).getD [])
    | none => runPatterns rest response

/-- The warning text `f"Invalid response to `{question}` & `{candidate_answer}`: {response}"`
logged by `_parse_response` when nothing matches. -/
def mkWarning (question candidate_answer response : Str) : Str :=
  ("Invalid response to `".data) ++ question ++ ("` & `".data) ++ candidate_answer
    ++ ("`: ".data) ++ response

/-- The value of the `acceptable` variable at the end of `_parse_response`:
"Yes"/"No" on a yes/no prefix, else the capitalized token of the first
anchored pattern that matches, else "Yes" if an indirect-affirmation pattern
is found by `re.search`, else the empty string. -/
def acceptableOf (response : Str) : Str :=
  if List.isPrefixOf ("yes".data) (pyLower response) then "Yes".data
  else if List.isPrefixOf ("no".data) (pyLower response) then "No".data
  else if runPatterns patterns response != [] then runPatterns patterns response
  else if correct_patterns.any (fun p => reSearch p response) then "Yes".data
  else []

/-- `_parse_response(response, candidate_answer, question)`: the returned
judgment `int(acceptable == "Yes")` paired with the warning the function logs
when no rule matched (`None` otherwise). -/
def _parse_response (response candidate_answer question : Str) : Nat × Option Str :=
  (if acceptableOf response == ("Yes".data) then 1 else 0,
   if acceptableOf response == ([] : Str) then
     some (mkWarning question candidate_answer response)
   else none)

/-
Prompt builder (`_prepare`), second-pass builder (`_prepare_second_pass`)
and driving loop (`llm_eval`).  File reading and the HTTP call are
orchestration: the template file's text and the generation endpoint are
taken as parameters.
-/

/-- Modelled from the spec: the `Candidate` record of `qaeval.data_utils`
(whose source is not included), associating a question (text plus gold answer
strings) with one candidate answer, exactly the fields `openllm.py` reads via
`candidate.question.text`, `candidate.question.answers`, `candidate.answer`. -/
structure Question where
  text : Str
  answers : List Str
deriving DecidableEq

/-- Modelled from the spec: see `Question`. -/
structure Candidate where
  question : Question
  answer : Str
deriving DecidableEq

/-- A chat turn `{"role": ..., "content": ...}`. -/
structure Turn where
  role : Str
  content : Str
deriving DecidableEq

/-- A prompt produced by `_prepare`: a flat string, or a chat for
conversational models. -/
inductive Prompt where
  | text : Str → Prompt
  | chat : List Turn → Prompt
deriving DecidableEq

/-- A Python value substituted into a template: a string, or `None`
(which `str.format` renders as the text "None"). -/
inductive PyVal where
  | vstr : Str → PyVal
  | vnone : PyVal
deriving DecidableEq

/-- Python `str(v)` for the values above. -/
def pyStr : PyVal → Str
  | .vstr s => s
  | .vnone => "None".data

/-- Python `str.format` with keyword arguments, for templates whose brace
uses are plain `{name}` placeholders (the only form the repository's
templates use): replaces each placeholder by `str(value)` and raises
`KeyError` (here `Except.error` carrying the name) on a placeholder with no
matching keyword.  The `acc` mode is `some` while scanning a placeholder
name (held reversed). -/
def pyFormatAux (kwargs : List (Str × PyVal)) : Option Str → Str → Except Str Str
  | none, [] => .ok []
  | none, '{' :: rest => pyFormatAux kwargs (some []) rest
  | none, c :: rest =>
    match pyFormatAux kwargs none rest with
    | .error e => .error e
    | .ok t => .ok (c :: t)
  | some acc, [] => .error (acc.reverse)
  | some acc, '}' :: rest =>
    match List.lookup acc.reverse kwargs with
    | none => .error (acc.reverse)
    | some v =>
      match pyFormatAux kwargs none rest with
      | .error e => .error e
      | .ok t => .ok (pyStr v ++ t)
  | some acc, c :: rest => pyFormatAux kwargs (some (c :: acc)) rest

/-- Python `template.format(**kwargs)` (see `pyFormatAux`). -/
def pyFormat (kwargs : List (Str × PyVal)) (template : Str) : Except Str Str :=
  pyFormatAux kwargs none template

/-- The `CONVERSATIONAL_MODELS` set of the source. -/
def CONVERSATIONAL_MODELS : List Str :=
  ["meta-llama/Llama-2-7b-chat-hf".data,
   "meta-llama/Llama-2-13b-chat-hf".data,
   "mistralai/Mistral-7B-Instruct-v0.1".data,
   "HuggingFaceH4/zephyr-7b-beta".data,
   "allenai/tulu-2-7b".data,
   "allenai/tulu-2-dpo-7b".data]

/-- `_is_conversational(model_name_or_path)`. -/
def _is_conversational (model_name_or_path : Str) : Bool :=
  CONVERSATIONAL_MODELS.contains model_name_or_path

/-- Lines 96-110 of the source: wrap a filled prompt into a chat for a
conversational model.  Mistral/tulu-2 identifiers take the whole prompt as
the user turn; otherwise the prompt is split on "###", everything before the
last section is joined back as the instruction, and the chat gets a system
turn only when that instruction is truthy (not `None` and not empty). -/
def conversationalWrap (model_name_or_path : Str) (prompt : Str) : List Turn :=
  if containsStr ("Mistral".data) model_name_or_path
      || containsStr ("tulu-2".data) model_name_or_path then
    [⟨"user".data, prompt⟩]
  else
    (if 1 < (pySplit3 prompt).length then
       (if pyJoin ("###".data) (pySplit3 prompt).dropLast != [] then
          [(⟨"system".data, pyJoin ("###".data) (pySplit3 prompt).dropLast⟩ : Turn)]
        else [])
     else []) ++ [⟨"user".data, pyStrip ((pySplit3 prompt).getLastD [])⟩]

/-- Python truthiness of the loaded context mapping (`None` or `{}` are falsy). -/
def ctxTruthy : Option (List (Str × Str)) → Bool
  | none => false
  | some m => !m.isEmpty

/-- Question normalization of `_prepare`: append "?" unless already present. -/
def normalizeQuestion (q : Str) : Str :=
  if List.isSuffixOf ("?".data) q then q else q ++ "?".data

/-- Gold-answer rendering of `_prepare`:
`", ".join([f'"{a}"' for a in gold_answers])`. -/
def renderGoldAnswers (answers : List Str) : Str :=
  pyJoin (", ".data) (answers.map (fun a => ('"' :: a) ++ ['"']))

/-- The passage value `context_passage.get(question, context_passage.get(question[:-1], None))`. -/
def passageLookup (m : List (Str × Str)) (question : Str) : PyVal :=
  match List.lookup question m with
  | some p => .vstr p
  | none =>
    match List.lookup question.dropLast m with
    | some p => .vstr p
    | none => .vnone

/-- The body of `_prepare`'s per-candidate loop (the `Candidate`-typed input
branch, the one `llm_eval` exercises), from the already stripped template to
the prompt appended to `prompts`. -/
def prepareOne (prompt_template : Str) (context_passage : Option (List (Str × Str)))
    (model_name_or_path : Str) (c : Candidate) : Except Str Prompt :=
  match
    (if ctxTruthy context_passage then
       pyFormat
         [("q".data, .vstr (normalizeQuestion c.question.text)),
          ("answers".data, .vstr (renderGoldAnswers c.question.answers)),
          ("candidate_answer".data, .vstr c.answer),
          ("passage".data,
            passageLookup (context_passage.getD []) (normalizeQuestion c.question.text))]
         prompt_template
     else
       pyFormat
         [("q".data, .vstr (normalizeQuestion c.question.text)),
          ("answers".data, .vstr (renderGoldAnswers c.question.answers)),
          ("candidate_answer".data, .vstr c.answer)]
         prompt_template) with
  | .error e => .error e
  | .ok prompt =>
    if _is_conversational model_name_or_path then
      .ok (.chat (conversationalWrap model_name_or_path prompt))
    else
      .ok (.text prompt)

/-- `for`-loop accumulation with Python's fail-on-first-error semantics. -/
def mapExcept (f : α → Except ε β) : List α → Except ε (List β)
  | [] => .ok []
  | a :: rest =>
    match f a with
    | .error e => .error e
    | .ok b =>
      match mapExcept f rest with
      | .error e => .error e
      | .ok bs => .ok (b :: bs)

/-- `for`-loop accumulation where an element may fail (modelling a Python
runtime error such as indexing an empty list). -/
def mapOpt (f : α → Option β) : List α → Option (List β)
  | [] => some []
  | a :: rest =>
    match f a with
    | none => none
    | some b =>
      match mapOpt f rest with
      | none => none
      | some bs => some (b :: bs)

/-- `_prepare(candidates, prompt_file, model_name_or_path, context_file)`:
`file_content` is the text of the prompt file (stripped on load, line 64),
`context_passage` the loaded context mapping or `None`. -/
def _prepare (candidates : List Candidate) (file_content : Str)
    (model_name_or_path : Str) (context_passage : Option (List (Str × Str))) :
    Except Str (List Prompt) :=
  mapExcept (prepareOne (pyStrip file_content) context_passage model_name_or_path) candidates

/-- An element of a history list built by `_prepare_second_pass`: Python's
`history.append(chat[1:])` puts a whole list of turns into one slot, so the
lists it builds are heterogeneous. -/
inductive ChatItem where
  | turn : Turn → ChatItem
  | nested : List Turn → ChatItem
deriving DecidableEq

/-- A `model_responses` element: a bare string or a list of strings. -/
inductive RespArg where
  | one : Str → RespArg
  | many : List Str → RespArg
deriving DecidableEq

/-- The fixed follow-up user turn content of `_prepare_second_pass`. -/
def followUp : Str := "Please tell me your final judgment in only \x27yes\x27 or \x27no\x27".data

/-- Response truncation in `_prepare_second_pass`:
`if "###" in r: r = r.split("###")[0].strip()`. -/
def truncResp (r : Str) : Str :=
  if containsStr ("###".data) r then pyStrip ((pySplit3 r).headD []) else r

/-- `_prepare_second_pass(chats, model_responses)`.  Note the source's
`history.append(chat[1:])` (not `extend`) when the chat opens with a system
turn, which nests the remaining turns as a single element. -/
def _prepare_second_pass (chats : List (List Turn)) (model_responses : List RespArg) :
    List (List ChatItem) :=
  (List.zip chats model_responses).flatMap (fun cr =>
    (match cr.2 with | .one s => [s] | .many l => l).map (fun r =>
      (match cr.1 with
       | t :: rest =>
         if t.role == ("system".data) then [ChatItem.nested rest]
         else (t :: rest).map ChatItem.turn
       | [] => []) ++
      [ChatItem.turn ⟨"assistant".data, truncResp r⟩, ChatItem.turn ⟨"user".data, followUp⟩]))

/-- What `llm_eval` posts to the generation endpoint for one prompt: the flat
prompt text, the content of a chat's last turn when that turn is a user turn,
or the raw last turn itself otherwise; `none` models the `IndexError` Python
would raise on an empty chat. -/
inductive SentPayload where
  | text : Str → SentPayload
  | rawTurn : Turn → SentPayload
deriving DecidableEq

/-- Lines 281-287 of the source: extract the payload sent for one prompt. -/
def extractPayload : Prompt → Option SentPayload
  | .text s => some (.text s)
  | .chat turns =>
    match turns.getLast? with
    | none => none
    | some t =>
      if t.role == ("user".data) then some (.text t.content) else some (.rawTurn t)

/-- Python `round(num / den)` for a non-negative exact rational, including
round-half-to-even; `llm_eval` only calls it with `den = 1`. -/
def pyRound (num den : Nat) : Nat :=
  if 2 * (num % den) < den then num / den
  else if den < 2 * (num % den) then num / den + 1
  else if (num / den) % 2 == 0 then num / den else num / den + 1

/-- `llm_eval(model_name_or_path, candidates, prompt_file=..., context_file=...)`:
`post` is the generation endpoint (`None` models a failed request, which the
source's `except` clause converts to the empty-string response).  Returns
`none` when the Python code would raise (template `KeyError`, empty chat). -/
def llm_eval (post : SentPayload → Option Str) (model_name_or_path : Str)
    (candidates : List Candidate) (file_content : Str)
    (context_passage : Option (List (Str × Str))) :
    Option (List (Nat × Str × List Nat)) :=
  match _prepare candidates file_content model_name_or_path context_passage with
  | .error _ => none
  | .ok examples =>
    match mapOpt extractPayload examples with
    | none => none
    | some payloads =>
      some ((List.zip candidates
          (payloads.map (fun p => match post p with | some s => s | none => []))).map
        (fun cr =>
          (pyRound (List.sum [(_parse_response cr.2 cr.1.answer cr.1.question.text).1]) 1,
           cr.2,
           [(_parse_response cr.2 cr.1.answer cr.1.question.text).1])))

/-
Theorems for the claims.  Helper lemmas first.
-/

theorem yes_no_excl (l : Str) (h : List.isPrefixOf ("no".data) l = true) :
    List.isPrefixOf ("yes".data) l = false := by
  match l with
  | [] => exact absurd h (by decide)
  | c :: rest =>
    have h' : (('n' == c) && List.isPrefixOf ['o'] rest) = true := h
    have hc : c = 'n' := by
      cases hnc : ('n' == c) with
      | false => rw [hnc, Bool.false_and] at h'; exact absurd h' (by decide)
      | true => exact (eq_of_beq hnc).symm
    subst hc
    show (('y' == 'n') && List.isPrefixOf ['e', 's'] rest) = false
    rw [show (('y' == 'n') : Bool) = false from rfl, Bool.false_and]

theorem runPatterns_eq_nil (response : Str) :
    ∀ l : List (Pat × Nat), (∀ p ∈ l, reMatch p.1 response = none) →
      runPatterns l response = [] := by
  intro l
  induction l with
  | nil => intro _; rfl
  | cons hd tl ih =>
    intro h
    obtain ⟨p, idx⟩ := hd
    have h1 : reMatch p response = none := h (p, idx) (by simp)
    simp only [runPatterns, h1]
    exact ih (fun q hq => h q (List.mem_cons_of_mem _ hq))

/-- C1: for every response that starts, case-insensitively, with "yes",
`_parse_response` returns 1, and for every response starting with "no" it
returns 0, whatever the candidate answer and question arguments are. -/
theorem c1_parse_yes_no_start (response candidate_answer question : Str) :
    (List.isPrefixOf ("yes".data) (pyLower response) = true →
      (_parse_response response candidate_answer question).1 = 1) ∧
    (List.isPrefixOf ("no".data) (pyLower response) = true →
      (_parse_response response candidate_answer question).1 = 0) := by
  constructor
  · intro h
    simp [_parse_response, acceptableOf, h]
  · intro h
    simp [_parse_response, acceptableOf, h, yes_no_excl (pyLower response) h]

/-- Witness for C1 at concrete inputs "YES indeed" and "No way". -/
theorem c1_witness :
    (_parse_response ("YES indeed".data) ("Biden".data) ("who?".data)).1 = 1 ∧
    (_parse_response ("No way".data) ("Biden".data) ("who?".data)).1 = 0 :=
  ⟨(c1_parse_yes_no_start ("YES indeed".data) ("Biden".data) ("who?".data)).1 (by decide),
   (c1_parse_yes_no_start ("No way".data) ("Biden".data) ("who?".data)).2 (by decide)⟩

/-- C2: a response that does not start with yes/no, matches no anchored
pattern and no indirect-affirmation pattern makes `_parse_response` return 0
together with a warning, and that warning contains the question and the
candidate answer. -/
theorem c2_parse_default_reject (response candidate_answer question : Str)
    (hyes : List.isPrefixOf ("yes".data) (pyLower response) = false)
    (hno : List.isPrefixOf ("no".data) (pyLower response) = false)
    (hpat : ∀ p ∈ patterns, reMatch p.1 response = none)
    (hcor : ∀ p ∈ correct_patterns, reSearch p response = false) :
    _parse_response response candidate_answer question
      = (0, some (mkWarning question candidate_answer response)) ∧
    List.IsInfix question (mkWarning question candidate_answer response) ∧
    List.IsInfix candidate_answer (mkWarning question candidate_answer response) := by
  have hrun := runPatterns_eq_nil response patterns hpat
  have hany : correct_patterns.any (fun p => reSearch p response) = false := by
    simp only [List.any_eq_false]
    intro p hp
    simp [hcor p hp]
  refine ⟨?_, ?_, ?_⟩
  · simp [_parse_response, acceptableOf, hyes, hno, hrun, hany]
  · exact ⟨"Invalid response to `".data,
      ("` & `".data) ++ candidate_answer ++ ("`: ".data) ++ response,
      by simp [mkWarning, List.append_assoc]⟩
  · exact ⟨("Invalid response to `".data) ++ question ++ ("` & `".data),
      ("`: ".data) ++ response,
      by simp [mkWarning, List.append_assoc]⟩

/-- Witness for C2 at the spec's unparseable response. -/
theorem c2_witness :
    _parse_response ("I\x27m not sure what to say".data) ("Biden".data) ("who?".data)
      = (0, some (mkWarning ("who?".data) ("Biden".data)
          ("I\x27m not sure what to say".data))) ∧
    List.IsInfix ("who?".data)
      (mkWarning ("who?".data) ("Biden".data) ("I\x27m not sure what to say".data)) ∧
    List.IsInfix ("Biden".data)
      (mkWarning ("who?".data) ("Biden".data) ("I\x27m not sure what to say".data)) :=
  c2_parse_default_reject ("I\x27m not sure what to say".data) ("Biden".data) ("who?".data)
    (by decide) (by decide) (by decide) (by decide)

/-- C7: `_parse_response` maps "I would say no." to 0 and
"My final judgment is yes." to 1, for any candidate answer and question. -/
theorem c7_parse_phrasing_examples (candidate_answer question : Str) :
    (_parse_response ("I would say no.".data) candidate_answer question).1 = 0 ∧
    (_parse_response ("My final judgment is yes.".data) candidate_answer question).1 = 1 :=
  ⟨rfl, rfl⟩

/-- C8: a response that does not start with yes/no, matches no anchored
pattern, but contains a substring matching an indirect-affirmation pattern,
makes `_parse_response` return 1. -/
theorem c8_parse_indirect_affirmation (response candidate_answer question : Str)
    (hyes : List.isPrefixOf ("yes".data) (pyLower response) = false)
    (hno : List.isPrefixOf ("no".data) (pyLower response) = false)
    (hpat : ∀ p ∈ patterns, reMatch p.1 response = none)
    (hcor : reSearch correctPat1 response = true ∨ reSearch correctPat2 response = true) :
    (_parse_response response candidate_answer question).1 = 1 := by
  have hrun := runPatterns_eq_nil response patterns hpat
  have hany : correct_patterns.any (fun p => reSearch p response) = true := by
    rcases hcor with h | h <;> simp [correct_patterns, h]
  simp [_parse_response, acceptableOf, hyes, hno, hrun, hany]

/-- Witness for C8 at the spec's indirect-affirmation response. -/
theorem c8_witness :
    (_parse_response ("The candidate answer is correct because...".data)
      ("Biden".data) ("who?".data)).1 = 1 :=
  c8_parse_indirect_affirmation ("The candidate answer is correct because...".data)
    ("Biden".data) ("who?".data) (by decide) (by decide) (by decide) (Or.inl (by decide))

/-- C3 (failing input): on a chat that opens with a system turn, the source's
`history.append(chat[1:])` (instead of `extend`) nests the remaining turns as
a single element, so the produced chat is not the original chat with the
system turn removed followed by the assistant and user turns. -/
theorem c3_second_pass_nests_history :
    _prepare_second_pass [[⟨"system".data, "S".data⟩, ⟨"user".data, "X".data⟩]]
      [.one ("Yes".data)]
    = [[.nested [⟨"user".data, "X".data⟩], .turn ⟨"assistant".data, "Yes".data⟩,
        .turn ⟨"user".data, followUp⟩]] ∧
    _prepare_second_pass [[⟨"system".data, "S".data⟩, ⟨"user".data, "X".data⟩]]
      [.one ("Yes".data)]
    ≠ [[.turn ⟨"user".data, "X".data⟩, .turn ⟨"assistant".data, "Yes".data⟩,
        .turn ⟨"user".data, followUp⟩]] := by decide

/-- C4 counterexample: "meta-llama/Llama-2-7b-chat-hf" is conversational and
outside the Mistral/tulu-2 special cases, and splitting the filled template
"###hello" yields two segments, yet no system turn is produced (the joined
pre-delimiter text is empty, hence falsy), contrary to the claim. -/
theorem c4_counterexample :
    _is_conversational ("meta-llama/Llama-2-7b-chat-hf".data) = true ∧
    containsStr ("Mistral".data) ("meta-llama/Llama-2-7b-chat-hf".data) = false ∧
    containsStr ("tulu-2".data) ("meta-llama/Llama-2-7b-chat-hf".data) = false ∧
    (pySplit3 ("###hello".data)).length = 2 ∧
    pyJoin ("###".data) (pySplit3 ("###hello".data)).dropLast = [] ∧
    conversationalWrap ("meta-llama/Llama-2-7b-chat-hf".data) ("###hello".data)
      = [⟨"user".data, "hello".data⟩] ∧
    conversationalWrap ("meta-llama/Llama-2-7b-chat-hf".data) ("###hello".data)
      ≠ [⟨"system".data, []⟩, ⟨"user".data, "hello".data⟩] := by decide

/-- C4 (amended): for a conversational model outside the Mistral/tulu-2
special cases, whenever the "###"-split of the filled template yields more
than one segment and the join of the segments before the last (the text
before the last delimiter) is nonempty, that join becomes the system turn and
the stripped last segment the user turn; for identifiers containing "Mistral"
or "tulu-2" the whole filled template is the single user turn verbatim. -/
theorem c4_conversational_wrap (model_name_or_path prompt : Str)
    (_hconv : _is_conversational model_name_or_path = true) :
    (containsStr ("Mistral".data) model_name_or_path = false →
      containsStr ("tulu-2".data) model_name_or_path = false →
      1 < (pySplit3 prompt).length →
      pyJoin ("###".data) (pySplit3 prompt).dropLast ≠ [] →
      conversationalWrap model_name_or_path prompt
        = [⟨"system".data, pyJoin ("###".data) (pySplit3 prompt).dropLast⟩,
           ⟨"user".data, pyStrip ((pySplit3 prompt).getLastD [])⟩]) ∧
    ((containsStr ("Mistral".data) model_name_or_path = true ∨
        containsStr ("tulu-2".data) model_name_or_path = true) →
      conversationalWrap model_name_or_path prompt = [⟨"user".data, prompt⟩]) := by
  constructor
  · intro hm ht hlen hjoin
    simp [conversationalWrap, hm, ht, hlen, hjoin]
  · intro h
    rcases h with h | h <;> simp [conversationalWrap, h]

/-- Witness for C4 at a Llama-2 chat model with template "a###b" and at the
Mistral model with the same template. -/
theorem c4_witness :
    conversationalWrap ("meta-llama/Llama-2-7b-chat-hf".data) ("a###b".data)
      = [⟨"system".data, pyJoin ("###".data) (pySplit3 ("a###b".data)).dropLast⟩,
         ⟨"user".data, pyStrip ((pySplit3 ("a###b".data)).getLastD [])⟩] ∧
    conversationalWrap ("mistralai/Mistral-7B-Instruct-v0.1".data) ("a###b".data)
      = [⟨"user".data, "a###b".data⟩] :=
  ⟨(c4_conversational_wrap ("meta-llama/Llama-2-7b-chat-hf".data) ("a###b".data)
      (by decide)).1 (by decide) (by decide) (by decide) (by decide),
   (c4_conversational_wrap ("mistralai/Mistral-7B-Instruct-v0.1".data) ("a###b".data)
      (by decide)).2 (Or.inl (by decide))⟩

/-- C5 counterexample: with a context mapping lacking the question (under both
keys), prompt building succeeds and renders the literal text "None" into the
prompt instead of failing with an error naming the missing key. -/
theorem c5_counterexample :
    prepareOne ("P: {passage} Q: {q}".data)
      (some [(("other question?".data), ("passage text".data))]) ("m".data)
      ⟨⟨"who is the president".data, ["Joe Biden".data]⟩, "Biden".data⟩
    = .ok (.text ("P: None Q: who is the president?".data)) ∧
    List.IsInfix ("None".data) ("P: None Q: who is the president?".data) := by
  constructor
  · rfl
  · exact ⟨"P: ".data, " Q: who is the president?".data, by decide⟩

/-- C5 (amended): when a nonempty context mapping is supplied but has no
passage under the normalized question nor under the question with its
trailing "?" stripped, prompt building does not fail fast: `format` receives
`None` and the filled prompt contains the literal text "None" in place of
`{passage}`. -/
theorem c5_missing_passage_renders_none (m : List (Str × Str))
    (hm : m.isEmpty = false)
    (h1 : List.lookup ("who is the president?".data) m = none)
    (h2 : List.lookup ("who is the president".data) m = none) :
    prepareOne ("P: {passage} Q: {q}".data) (some m) ("m".data)
      ⟨⟨"who is the president".data, ["Joe Biden".data]⟩, "Biden".data⟩
    = .ok (.text ("P: None Q: who is the president?".data)) := by
  have hp : passageLookup m (normalizeQuestion ("who is the president".data)) = PyVal.vnone := by
    simp [passageLookup,
      show normalizeQuestion ("who is the president".data)
        = ("who is the president?".data) from rfl,
      show ("who is the president?".data).dropLast = ("who is the president".data) from rfl,
      h1, h2]
  simp only [prepareOne, ctxTruthy, hm, Bool.not_false, if_true, Option.getD_some, hp]
  rfl

/-- Witness for C5 at a one-entry context mapping without the question. -/
theorem c5_witness :
    prepareOne ("P: {passage} Q: {q}".data)
      (some [(("other question?".data), ("passage text".data))]) ("m".data)
      ⟨⟨"who is the president".data, ["Joe Biden".data]⟩, "Biden".data⟩
    = .ok (.text ("P: None Q: who is the president?".data)) :=
  c5_missing_passage_renders_none [(("other question?".data), ("passage text".data))]
    (by decide) (by decide) (by decide)

/-- C6: on the spec's concrete example the prompt builder outputs exactly the
expected filled prompt; in general a question not already ending in "?" gets
"?" appended, and gold answers render as a comma-joined ordered list of
double-quoted strings. -/
theorem c6_prompt_builder (q : Str) (hq : List.isSuffixOf ("?".data) q = false) :
    _prepare [⟨⟨"who is the president".data, ["Joe Biden".data]⟩, "Biden".data⟩]
      ("Q: {q}\nGold: {answers}\nCandidate: {candidate_answer}".data) ("m".data) none
    = .ok [.text ("Q: who is the president?\nGold: \"Joe Biden\"\nCandidate: Biden".data)] ∧
    normalizeQuestion q = q ++ ("?".data) ∧
    renderGoldAnswers [("Joe Biden".data)] = ("\"Joe Biden\"".data) ∧
    renderGoldAnswers [("a".data), ("b".data)] = ("\"a\", \"b\"".data) := by
  refine ⟨rfl, ?_, rfl, rfl⟩
  simp [normalizeQuestion, hq]

/-- Witness for C6 at the spec's question text (which lacks a trailing "?"). -/
theorem c6_witness :
    normalizeQuestion ("who is the president".data)
      = ("who is the president".data) ++ ("?".data) :=
  (c6_prompt_builder ("who is the president".data) (by decide)).2.1

theorem mapExcept_length {α ε β : Type} (f : α → Except ε β) :
    ∀ (l : List α) (res : List β), mapExcept f l = .ok res → res.length = l.length := by
  intro l
  induction l with
  | nil =>
    intro res h
    simp only [mapExcept] at h
    injection h with h'
    rw [← h']
    rfl
  | cons a tl ih =>
    intro res h
    simp only [mapExcept] at h
    split at h
    · simp at h
    · split at h
      · simp at h
      next bs heq2 =>
        injection h with h'
        rw [← h']
        simp [ih bs heq2]

theorem mapOpt_length {α β : Type} (f : α → Option β) :
    ∀ (l : List α) (res : List β), mapOpt f l = some res → res.length = l.length := by
  intro l
  induction l with
  | nil =>
    intro res h
    simp only [mapOpt] at h
    injection h with h'
    rw [← h']
    rfl
  | cons a tl ih =>
    intro res h
    simp only [mapOpt] at h
    split at h
    · simp at h
    · split at h
      · simp at h
      next bs heq2 =>
        injection h with h'
        rw [← h']
        simp [ih bs heq2]

theorem mapExcept_mem {α ε β : Type} (f : α → Except ε β) :
    ∀ (l : List α) (res : List β), mapExcept f l = .ok res →
      ∀ b ∈ res, ∃ a ∈ l, f a = .ok b := by
  intro l
  induction l with
  | nil =>
    intro res h b hb
    simp only [mapExcept] at h
    injection h with h'
    rw [← h'] at hb
    simp at hb
  | cons a tl ih =>
    intro res h b hb
    simp only [mapExcept] at h
    split at h
    · simp at h
    next b0 heq1 =>
      split at h
      · simp at h
      next bs heq2 =>
        injection h with h'
        rw [← h'] at hb
        rcases List.mem_cons.mp hb with hb | hb
        · exact ⟨a, List.mem_cons_self a tl, hb ▸ heq1⟩
        · obtain ⟨a', ha', hfa'⟩ := ih bs heq2 b hb
          exact ⟨a', List.mem_cons_of_mem a ha', hfa'⟩

theorem pyRound_one (j : Nat) : pyRound j 1 = j := by
  simp [pyRound, Nat.mod_one, Nat.div_one]

theorem pyRound_single (j : Nat) : pyRound (List.sum [j]) 1 = j := by
  simp [List.sum_cons, List.sum_nil, pyRound_one]

theorem parse_judgment_le_one (r c q : Str) : (_parse_response r c q).1 ≤ 1 := by
  by_cases hb : (acceptableOf r == ("Yes".data)) = true
  · simp [_parse_response, hb]
  · simp [_parse_response, hb]

theorem conversationalWrap_getLast (model_name_or_path prompt : Str) :
    ∃ content, (conversationalWrap model_name_or_path prompt).getLast?
      = some ⟨"user".data, content⟩ := by
  by_cases hm : (containsStr ("Mistral".data) model_name_or_path
      || containsStr ("tulu-2".data) model_name_or_path) = true
  · exact ⟨prompt, by simp [conversationalWrap, hm]⟩
  · refine ⟨pyStrip ((pySplit3 prompt).getLastD []), ?_⟩
    simp [conversationalWrap, hm, List.getLast?_concat]

theorem prepareOne_chat_shape (prompt_template : Str)
    (context_passage : Option (List (Str × Str))) (model_name_or_path : Str)
    (c : Candidate) (turns : List Turn)
    (h : prepareOne prompt_template context_passage model_name_or_path c = .ok (.chat turns)) :
    ∃ tn : Turn, turns.getLast? = some tn ∧ tn.role = ("user".data) ∧
      extractPayload (.chat turns) = some (.text tn.content) := by
  simp only [prepareOne] at h
  split at h
  · simp at h
  next prompt heq =>
    by_cases hc : _is_conversational model_name_or_path = true
    · rw [if_pos hc] at h
      injection h with h'
      injection h' with h''
      obtain ⟨content, hlast⟩ := conversationalWrap_getLast model_name_or_path prompt
      refine ⟨⟨"user".data, content⟩, ?_, rfl, ?_⟩
      · rw [← h'']
        exact hlast
      · simp [extractPayload, ← h'', hlast]
    · rw [if_neg hc] at h
      injection h with h'
      exact absurd h' (by simp)

/-- C9: `llm_eval` returns one output per candidate, index aligned: the i-th
output is the tuple of (score, raw response for candidate i, judgment list)
where the judgment list is the singleton parse of that response against
candidate i's answer and question, and the score equals the rounded average
of the judgment list, which for the single sample is the judgment itself and
lies in {0,1}. -/
theorem c9_llm_eval_shape (post : SentPayload → Option Str) (model_name_or_path : Str)
    (candidates : List Candidate) (file_content : Str)
    (context_passage : Option (List (Str × Str))) (outputs : List (Nat × Str × List Nat))
    (h : llm_eval post model_name_or_path candidates file_content context_passage
      = some outputs) :
    outputs.length = candidates.length ∧
    ∀ i (hi : i < outputs.length) (hc : i < candidates.length),
      ∃ resp : Str,
        outputs[i]
          = ((_parse_response resp candidates[i].answer candidates[i].question.text).1,
             resp,
             [(_parse_response resp candidates[i].answer candidates[i].question.text).1]) ∧
        (_parse_response resp candidates[i].answer candidates[i].question.text).1
          = pyRound
              (List.sum
                [(_parse_response resp candidates[i].answer candidates[i].question.text).1]) 1 ∧
        (_parse_response resp candidates[i].answer candidates[i].question.text).1 ≤ 1 := by
  simp only [llm_eval] at h
  split at h
  · simp at h
  next examples heq =>
    split at h
    · simp at h
    next payloads heq2 =>
      injection h with h'
      subst h'
      simp only [_prepare] at heq
      have hex : examples.length = candidates.length := mapExcept_length _ candidates examples heq
      have hpay : payloads.length = examples.length := mapOpt_length _ examples payloads heq2
      have hrs :
          (payloads.map (fun p => match post p with | some s => s | none => [])).length
            = candidates.length := by
        simp [List.length_map, hpay, hex]
      constructor
      · simp [List.length_map, List.length_zip, hrs]
      · intro i hi hc
        have hir : i < (payloads.map
            (fun p => match post p with | some s => s | none => [])).length := by
          rw [hrs]
          exact hc
        refine ⟨(payloads.map (fun p => match post p with | some s => s | none => []))[i],
          ?_, (pyRound_single _).symm, parse_judgment_le_one _ _ _⟩
        simp [List.getElem_map, List.getElem_zip, pyRound_single, pyRound_one]

/-- Witness for C9: a single candidate against an endpoint that always
answers "Yes" yields the single output (1, "Yes", [1]). -/
theorem c9_witness :
    ([((1 : Nat), ("Yes".data, [(1 : Nat)]))] : List (Nat × Str × List Nat)).length
      = [(⟨⟨"t".data, ["a".data]⟩, "b".data⟩ : Candidate)].length :=
  (c9_llm_eval_shape (fun _ => some ("Yes".data)) ("m".data)
    [⟨⟨"t".data, ["a".data]⟩, "b".data⟩] ("{q}".data) none
    [((1 : Nat), ("Yes".data, [(1 : Nat)]))] (by rfl)).1

/-- C10: for everything `_prepare` builds, `llm_eval` makes exactly one
request per candidate, and for every chat-structured prompt the payload it
sends is the content of the chat's final turn, which is a user turn — the
system turn is not sent and no second-pass follow-up request exists. -/
theorem c10_llm_eval_sends_last_user_turn (candidates : List Candidate)
    (file_content : Str) (model_name_or_path : Str)
    (context_passage : Option (List (Str × Str))) (prompts : List Prompt)
    (h : _prepare candidates file_content model_name_or_path context_passage = .ok prompts) :
    prompts.length = candidates.length ∧
    (∀ payloads, mapOpt extractPayload prompts = some payloads →
      payloads.length = candidates.length) ∧
    ∀ turns : List Turn, Prompt.chat turns ∈ prompts →
      ∃ tn : Turn, turns.getLast? = some tn ∧ tn.role = ("user".data) ∧
        extractPayload (.chat turns) = some (.text tn.content) := by
  simp only [_prepare] at h
  refine ⟨mapExcept_length _ _ _ h, ?_, ?_⟩
  · intro payloads hp
    rw [mapOpt_length _ _ _ hp, mapExcept_length _ _ _ h]
  · intro turns hmem
    obtain ⟨c, _, hcp⟩ := mapExcept_mem _ _ _ h _ hmem
    exact prepareOne_chat_shape _ _ _ _ _ hcp

/-- Witness for C10: the chat `_prepare` builds for the Llama-2 chat model
from the filled template "sys###hello" ends in a user turn whose content is
the payload `llm_eval` sends. -/
theorem c10_witness :
    ∃ tn : Turn,
      ([(⟨"system".data, "sys".data⟩ : Turn), ⟨"user".data, "hello".data⟩].getLast?
        = some tn) ∧ tn.role = ("user".data) ∧
      extractPayload (.chat [⟨"system".data, "sys".data⟩, ⟨"user".data, "hello".data⟩])
        = some (.text tn.content) :=
  (c10_llm_eval_sends_last_user_turn [⟨⟨"t".data, ["a".data]⟩, "b".data⟩]
    ("sys###hello".data) ("meta-llama/Llama-2-7b-chat-hf".data) none
    [.chat [⟨"system".data, "sys".data⟩, ⟨"user".data, "hello".data⟩]] (by rfl)).2.2
    [⟨"system".data, "sys".data⟩, ⟨"user".data, "hello".data⟩] (by decide)
